import Mathlib

/-!
Verification development for the Rust security service
(`src/rust-security-main.rs`): a shallow embedding of the
risk-adaptive configuration orchestrator (`SecurityService`) and proofs
about its risk scoring, tiering, proxy/timing selection, header
construction and pipeline composition.

Modelling conventions:
* Rust `f64` risk scores are embedded as `ℚ`; the heuristic only ever
  adds the constants 0.3, 0.5, 0.4, 0.6 and clamps, so the rational
  model is exact for the decimal constants of the source.
* Rust `String` is Lean `String`; `str::contains`/`str::ends_with`
  become substring/suffix tests on the character lists.
* The `HashMap` caches/headers are association lists with distinct keys.
* Randomness (`gen_range`, `gen_bool`) is threaded explicitly: the
  sampled index and the two Bernoulli outcomes are parameters.
* Fallible stages return `Except String`, mirroring
  `Result<_, String>`; the mutation of the risk cache is explicit
  state passing.
-/

namespace Huginn

/-- `pat` occurs as a contiguous run inside `s` (lists of characters). -/
def listContains (pat : List Char) : List Char → Bool
  | [] => pat.isPrefixOf ([] : List Char)
  | c :: rest => pat.isPrefixOf (c :: rest) || listContains pat rest

/-- Rust `str::contains(pat)`: `pat` occurs as a contiguous substring. -/
def strContains (s pat : String) : Bool :=
  listContains pat.toList s.toList

/-- Rust `str::ends_with(pat)`: `pat` is a suffix of `s`. -/
def strEndsWith (s pat : String) : Bool :=
  pat.toList.isSuffixOf s.toList

/-- `SecurityRequest` from `src/rust-security-main.rs`. -/
structure SecurityRequest where
  target : String
  job_type : String
  priority : Int
deriving Repr, DecidableEq

/-- `ProxyConfig` from `src/rust-security-main.rs`. -/
structure ProxyConfig where
  proxy_url : String
  proxy_type : String
  rotation_interval : Nat
deriving Repr, DecidableEq

/-- `TimingConfig` from `src/rust-security-main.rs`. -/
structure TimingConfig where
  request_delay_min : Nat
  request_delay_max : Nat
  page_load_delay : Nat
  human_simulation : Bool
deriving Repr, DecidableEq

/-- `DetectionPattern` from `src/rust-security-main.rs`. -/
structure DetectionPattern where
  pattern_type : String
  indicators : List String
  risk_score : ℚ
deriving Repr, DecidableEq

/-- `RiskAssessor` from `src/rust-security-main.rs`: the
`domain_risk_cache : HashMap<String, f64>` is an association list
(keys are pairwise distinct in every reachable state). -/
structure RiskAssessor where
  domain_risk_cache : List (String × ℚ)
  detection_patterns : List DetectionPattern
deriving Repr, DecidableEq

/-- `RiskAssessor::new`. -/
def RiskAssessor.new : RiskAssessor :=
  { domain_risk_cache := []
    detection_patterns :=
      [ { pattern_type := "rate_limiting"
          indicators := ["429", "rate limit"]
          risk_score := 8/10 }
      , { pattern_type := "captcha"
          indicators := ["captcha", "recaptcha"]
          risk_score := 9/10 }
      , { pattern_type := "bot_detection"
          indicators := ["bot detected", "unusual traffic"]
          risk_score := 95/100 } ] }

/-- `Modelled from the spec:` `BrowserFingerprint` lives in the external
`fingerprint` module (not under `src/`); §3 of the spec gives
FingerprintRecord = {id, user_agent, accept, accept_language,
accept_encoding, dnt}, matching the fields the orchestrator reads. -/
structure BrowserFingerprint where
  id : String
  user_agent : String
  accept : String
  accept_language : String
  accept_encoding : String
  dnt : String
deriving Repr, DecidableEq

/-- `Modelled from the spec:` `TLSProfile` lives in the external `tls`
module (not under `src/`); the spec (§3) treats it as opaque to the
core, selected by tier name. -/
structure TLSProfile where
  profile_name : String
deriving Repr, DecidableEq

/-- `SecurityConfiguration` from `src/rust-security-main.rs`; the
`headers` map is an association list with pairwise distinct keys. -/
structure SecurityConfiguration where
  headers : List (String × String)
  tls_config : TLSProfile
  proxy_config : ProxyConfig
  timing_config : TimingConfig
  fingerprint_id : String
deriving Repr, DecidableEq

/-- `SecurityService` from `src/rust-security-main.rs`.  The two
external managers are `Modelled from the spec:` §6 gives their consumed
interface as `get(tier) -> Optional<record>`, so each is embedded as a
tier-lookup function.  The `Arc<RwLock<...>>` wrappers disappear: the
lock-guarded state is passed explicitly. -/
structure SecurityService where
  fingerprint_manager : String → Option BrowserFingerprint
  tls_manager : String → Option TLSProfile
  proxy_pool : List ProxyConfig
  risk_assessor : RiskAssessor

/-- The heuristic body of `assess_target_risk` (lines 127–150): the
additive substring rules followed by the clamp
`risk_score.min(1.0).max(0.0)`. -/
def computeRiskScore (target : String) : ℚ :=
  let risk_score : ℚ := 0
  let risk_score :=
    if strContains target "cloudflare" || strContains target "akamai" then
      risk_score + 3/10 else risk_score
  let risk_score :=
    if strEndsWith target ".gov" || strEndsWith target ".mil" then
      risk_score + 5/10 else risk_score
  let risk_score :=
    if strContains target "recaptcha" || strContains target "captcha" then
      risk_score + 4/10 else risk_score
  let risk_score :=
    if strContains target "facebook" || strContains target "twitter" ||
       strContains target "linkedin" || strContains target "instagram" then
      risk_score + 6/10 else risk_score
  max (min risk_score 1) 0

/-- `assess_target_risk` (lines 118–156): check the cache, on a hit
return the cached value unchanged, on a miss run the heuristic and
insert the result before returning.  `HashMap::insert` on an absent key
is a cons onto the association list. -/
def assess_target_risk (ra : RiskAssessor) (target : String) :
    ℚ × RiskAssessor :=
  match ra.domain_risk_cache.lookup target with
  | some cached_risk => (cached_risk, ra)
  | none =>
      let risk_score := computeRiskScore target
      (risk_score,
       { ra with domain_risk_cache := (target, risk_score) :: ra.domain_risk_cache })

/-- The tier string computed inside `select_fingerprint` (lines 162–168). -/
def fingerprintTier (risk_score : ℚ) : String :=
  if risk_score > 7/10 then "stealth"
  else if risk_score > 4/10 then "standard"
  else "simple"

/-- `select_fingerprint` (lines 158–172): tier the score, then the
external manager's tiered lookup; `None` becomes the error string. -/
def select_fingerprint (fm : String → Option BrowserFingerprint)
    (risk_score : ℚ) : Except String BrowserFingerprint :=
  match fm (fingerprintTier risk_score) with
  | some fp => .ok fp
  | none => .error "No suitable fingerprint available"

/-- The tier string computed inside `get_tls_configuration`
(lines 177–181). -/
def tlsTier (risk_score : ℚ) : String :=
  if risk_score > 6/10 then "chrome_latest" else "firefox_standard"

/-- `get_tls_configuration` (lines 174–185). -/
def get_tls_configuration (tm : String → Option TLSProfile)
    (risk_score : ℚ) : Except String TLSProfile :=
  match tm (tlsTier risk_score) with
  | some p => .ok p
  | none => .error "No suitable TLS profile available"

/-- `select_proxy` (lines 187–208).  `randIndex` is the value sampled by
`rand::thread_rng().gen_range(0..proxy_pool.len())`, which in Rust is
always `< proxy_pool.len()`; indexing out of bounds would panic, which
the `getD` default never realizes under that contract. -/
def select_proxy (proxy_pool : List ProxyConfig) (risk_score : ℚ)
    (randIndex : Nat) : ProxyConfig :=
  if proxy_pool.isEmpty then
    { proxy_url := "direct", proxy_type := "direct", rotation_interval := 300 }
  else
    let proxy_index := if risk_score > 5/10 then randIndex else 0
    proxy_pool.getD proxy_index
      { proxy_url := "direct", proxy_type := "direct", rotation_interval := 300 }

/-- `configure_timing` (lines 210–225). -/
def configure_timing (risk_score : ℚ) : TimingConfig :=
  if risk_score > 7/10 then
    { request_delay_min := 2000, request_delay_max := 8000
      page_load_delay := 3000, human_simulation := true }
  else if risk_score > 4/10 then
    { request_delay_min := 1000, request_delay_max := 4000
      page_load_delay := 2000, human_simulation := true }
  else
    { request_delay_min := 500, request_delay_max := 2000
      page_load_delay := 1000, human_simulation := false }

/-- `build_headers` (lines 227–250).  `addCacheControl` and
`addSecFetch` are the outcomes of the two `gen_bool` trials (0.7 and
0.5).  All keys inserted are pairwise distinct, so the association list
is the `HashMap` exactly. -/
def build_headers (fingerprint : BrowserFingerprint)
    (addCacheControl addSecFetch : Bool) : List (String × String) :=
  let headers : List (String × String) :=
    [ ("User-Agent", fingerprint.user_agent)
    , ("Accept", fingerprint.accept)
    , ("Accept-Language", fingerprint.accept_language)
    , ("Accept-Encoding", fingerprint.accept_encoding)
    , ("DNT", fingerprint.dnt)
    , ("Connection", "keep-alive")
    , ("Upgrade-Insecure-Requests", "1") ]
  let headers :=
    if addCacheControl then headers ++ [("Cache-Control", "max-age=0")]
    else headers
  let headers :=
    if addSecFetch then
      headers ++
        [ ("Sec-Fetch-Dest", "document")
        , ("Sec-Fetch-Mode", "navigate")
        , ("Sec-Fetch-Site", "none") ]
    else headers
  headers

/-- `configure_security` (lines 90–116): the six stages in source
order.  The cache mutation made by `assess_target_risk` persists even
when a later stage errors (the `RwLock` write happens before the `?`
propagation), so the updated service state is returned alongside the
`Result`.  `select_proxy`, `configure_timing` and `build_headers` are
infallible in the source (always `Ok`), so their `?` never fires. -/
def configure_security (svc : SecurityService) (request : SecurityRequest)
    (randIndex : Nat) (addCacheControl addSecFetch : Bool) :
    Except String SecurityConfiguration × SecurityService :=
  let (risk_score, ra) := assess_target_risk svc.risk_assessor request.target
  let svc' := { svc with risk_assessor := ra }
  match select_fingerprint svc.fingerprint_manager risk_score with
  | .error e => (.error e, svc')
  | .ok fingerprint =>
    match get_tls_configuration svc.tls_manager risk_score with
    | .error e => (.error e, svc')
    | .ok tls_config =>
      let proxy_config := select_proxy svc.proxy_pool risk_score randIndex
      let timing_config := configure_timing risk_score
      let headers := build_headers fingerprint addCacheControl addSecFetch
      (.ok { headers := headers
             tls_config := tls_config
             proxy_config := proxy_config
             timing_config := timing_config
             fingerprint_id := fingerprint.id }, svc')

end Huginn

namespace Huginn

/-- The closed universe of header keys `build_headers` can ever emit:
the 7 mandatory keys plus `Cache-Control` and the Sec-Fetch triplet. -/
def headerKeyUniverse : List String :=
  [ "User-Agent", "Accept", "Accept-Language", "Accept-Encoding", "DNT"
  , "Connection", "Upgrade-Insecure-Requests", "Cache-Control"
  , "Sec-Fetch-Dest", "Sec-Fetch-Mode", "Sec-Fetch-Site" ]

/-- The sequential `+=` accumulation of `assess_target_risk` equals the
clamped sum of four independent rule contributions (the spec's additive
reading of the heuristic). -/
theorem computeRiskScore_closed_form (target : String) :
    computeRiskScore target =
      max (min
        ((if strContains target "cloudflare" || strContains target "akamai" then (3:ℚ)/10 else 0)
          + (if strEndsWith target ".gov" || strEndsWith target ".mil" then (5:ℚ)/10 else 0)
          + (if strContains target "recaptcha" || strContains target "captcha" then (4:ℚ)/10 else 0)
          + (if strContains target "facebook" || strContains target "twitter" ||
                strContains target "linkedin" || strContains target "instagram" then (6:ℚ)/10 else 0))
        1) 0 := by
  unfold computeRiskScore
  split_ifs <;> norm_num

theorem computeRiskScore_nonneg (target : String) : 0 ≤ computeRiskScore target := by
  unfold computeRiskScore
  exact le_max_right _ _

theorem computeRiskScore_le_one (target : String) : computeRiskScore target ≤ 1 := by
  unfold computeRiskScore
  exact max_le (min_le_right _ _) zero_le_one

/-- A successful association-list lookup certifies membership. -/
theorem lookup_mem {l : List (String × ℚ)} {k : String} {v : ℚ}
    (h : l.lookup k = some v) : (k, v) ∈ l := by
  obtain ⟨l₁, l₂, rfl, -⟩ := List.lookup_eq_some_iff.mp h
  simp

/-- Claim C1 — for every target string, the value returned by
`assess_target_risk` lies in `[0,1]`, whether it is a cache hit or a
fresh computation.  The hypothesis is the cache invariant (every cached
value is in `[0,1]`): it holds for `RiskAssessor.new` (empty cache) and,
by the second conjunct, is preserved by every call, so it holds in every
reachable state of the service. -/
theorem assess_target_risk_mem_unit_interval (ra : RiskAssessor) (target : String)
    (hinv : ∀ p ∈ ra.domain_risk_cache, 0 ≤ p.2 ∧ p.2 ≤ 1) :
    (0 ≤ (assess_target_risk ra target).1 ∧ (assess_target_risk ra target).1 ≤ 1) ∧
    ∀ p ∈ (assess_target_risk ra target).2.domain_risk_cache, 0 ≤ p.2 ∧ p.2 ≤ 1 := by
  unfold assess_target_risk
  cases h : ra.domain_risk_cache.lookup target with
  | some v =>
      exact ⟨hinv _ (lookup_mem h), hinv⟩
  | none =>
      refine ⟨⟨computeRiskScore_nonneg target, computeRiskScore_le_one target⟩, ?_⟩
      rintro p hp
      rcases List.mem_cons.mp hp with rfl | hmem
      · exact ⟨computeRiskScore_nonneg target, computeRiskScore_le_one target⟩
      · exact hinv _ hmem

/-- Witness for C1: the fresh assessor and the target `"cloudflare.com"`. -/
theorem assess_target_risk_mem_unit_interval_witness :
    0 ≤ (assess_target_risk RiskAssessor.new "cloudflare.com").1 ∧
    (assess_target_risk RiskAssessor.new "cloudflare.com").1 ≤ 1 :=
  (assess_target_risk_mem_unit_interval RiskAssessor.new "cloudflare.com"
    (by simp [RiskAssessor.new])).1

/-- Claim C2 — for every target not in the cache, `assess_target_risk`
returns exactly the clamped sum of the four additive, case-sensitive
substring rules (+0.3 CDN, +0.5 `.gov`/`.mil` suffix, +0.4 captcha,
+0.6 social), and nothing else contributes. -/
theorem assess_target_risk_miss_additive_formula (ra : RiskAssessor) (target : String)
    (h : ra.domain_risk_cache.lookup target = none) :
    (assess_target_risk ra target).1 =
      max (min
        ((if strContains target "cloudflare" || strContains target "akamai" then (3:ℚ)/10 else 0)
          + (if strEndsWith target ".gov" || strEndsWith target ".mil" then (5:ℚ)/10 else 0)
          + (if strContains target "recaptcha" || strContains target "captcha" then (4:ℚ)/10 else 0)
          + (if strContains target "facebook" || strContains target "twitter" ||
                strContains target "linkedin" || strContains target "instagram" then (6:ℚ)/10 else 0))
        1) 0 := by
  unfold assess_target_risk
  rw [h]
  exact computeRiskScore_closed_form target

/-- Witness for C2: the fresh assessor and the Facebook login URL. -/
theorem assess_target_risk_miss_additive_formula_witness :
    (RiskAssessor.new.domain_risk_cache.lookup "https://www.facebook.com/login" = none) ∧
    (assess_target_risk RiskAssessor.new "https://www.facebook.com/login").1 =
      max (min
        ((if strContains "https://www.facebook.com/login" "cloudflare" ||
              strContains "https://www.facebook.com/login" "akamai" then (3:ℚ)/10 else 0)
          + (if strEndsWith "https://www.facebook.com/login" ".gov" ||
                strEndsWith "https://www.facebook.com/login" ".mil" then (5:ℚ)/10 else 0)
          + (if strContains "https://www.facebook.com/login" "recaptcha" ||
                strContains "https://www.facebook.com/login" "captcha" then (4:ℚ)/10 else 0)
          + (if strContains "https://www.facebook.com/login" "facebook" ||
                strContains "https://www.facebook.com/login" "twitter" ||
                strContains "https://www.facebook.com/login" "linkedin" ||
                strContains "https://www.facebook.com/login" "instagram" then (6:ℚ)/10 else 0))
        1) 0 :=
  ⟨rfl, assess_target_risk_miss_additive_formula RiskAssessor.new
    "https://www.facebook.com/login" rfl⟩

/-- Claim C3 — `assess_target_risk` is idempotent with respect to the
cache: after a call, the returned value is stored under the target, and
a repeated call for the same target returns the identical value with
the state exactly unchanged (in this model a re-run of the heuristic
would cons a duplicate entry, so state equality certifies that the
second call took the cache path and did not re-run the heuristic). -/
theorem assess_target_risk_cache_idempotent (ra : RiskAssessor) (target : String) :
    (assess_target_risk ra target).2.domain_risk_cache.lookup target =
      some (assess_target_risk ra target).1 ∧
    assess_target_risk (assess_target_risk ra target).2 target =
      assess_target_risk ra target := by
  cases h : ra.domain_risk_cache.lookup target with
  | some v =>
      have h1 : assess_target_risk ra target = (v, ra) := by
        unfold assess_target_risk; rw [h]
      rw [h1]
      exact ⟨h, by unfold assess_target_risk; rw [h]⟩
  | none =>
      have h1 : assess_target_risk ra target =
          (computeRiskScore target,
           { ra with domain_risk_cache :=
               (target, computeRiskScore target) :: ra.domain_risk_cache }) := by
        unfold assess_target_risk; rw [h]
      rw [h1]
      refine ⟨List.lookup_cons_self, ?_⟩
      unfold assess_target_risk
      rw [List.lookup_cons_self]

/-- Claim C4 — tier comparisons are strict: `"stealth"` iff score > 0.7,
`"standard"` iff 0.4 < score ≤ 0.7, `"simple"` iff score ≤ 0.4;
`"chrome_latest"` iff score > 0.6, else `"firefox_standard"`; in
particular 0.7 falls to `"standard"`, 0.4 to `"simple"` and 0.6 to
`"firefox_standard"`. -/
theorem tier_thresholds_strict (s : ℚ) :
    (fingerprintTier s = "stealth" ↔ 7/10 < s) ∧
    (fingerprintTier s = "standard" ↔ 4/10 < s ∧ s ≤ 7/10) ∧
    (fingerprintTier s = "simple" ↔ s ≤ 4/10) ∧
    (tlsTier s = "chrome_latest" ↔ 6/10 < s) ∧
    (tlsTier s = "firefox_standard" ↔ s ≤ 6/10) ∧
    fingerprintTier (7/10) = "standard" ∧
    fingerprintTier (4/10) = "simple" ∧
    tlsTier (6/10) = "firefox_standard" := by
  have hfp : ∀ t : ℚ, fingerprintTier t =
      if 7/10 < t then "stealth" else if 4/10 < t then "standard" else "simple" :=
    fun t => rfl
  have htls : ∀ t : ℚ, tlsTier t =
      if 6/10 < t then "chrome_latest" else "firefox_standard" := fun t => rfl
  simp only [hfp, htls]
  repeat' constructor
  all_goals split_ifs <;> simp_all <;> try linarith

/-- Witness for C4: the boundary score 0.7 lands in tier `"standard"`. -/
theorem tier_thresholds_strict_witness : fingerprintTier (7/10) = "standard" :=
  (tier_thresholds_strict (7/10)).2.2.2.2.2.1

/-- Claim C5 — `configure_timing` maps every score to exactly one of the
three bands, split strictly at 0.7 and 0.4, and in every band the
minimum delay is at most the maximum delay. -/
theorem configure_timing_bands (s : ℚ) :
    (7/10 < s → configure_timing s =
      { request_delay_min := 2000, request_delay_max := 8000
        page_load_delay := 3000, human_simulation := true }) ∧
    (4/10 < s → s ≤ 7/10 → configure_timing s =
      { request_delay_min := 1000, request_delay_max := 4000
        page_load_delay := 2000, human_simulation := true }) ∧
    (s ≤ 4/10 → configure_timing s =
      { request_delay_min := 500, request_delay_max := 2000
        page_load_delay := 1000, human_simulation := false }) ∧
    (configure_timing s).request_delay_min ≤ (configure_timing s).request_delay_max := by
  unfold configure_timing
  split_ifs with h1 h2 <;>
    refine ⟨?_, ?_, ?_, ?_⟩ <;> intros <;> first | rfl | linarith

/-- Witness for C5: score 0.5 selects the moderate band. -/
theorem configure_timing_bands_witness :
    configure_timing (5/10) =
      { request_delay_min := 1000, request_delay_max := 4000
        page_load_delay := 2000, human_simulation := true } :=
  (configure_timing_bands (5/10)).2.1 (by norm_num) (by norm_num)

/-- Claim C6 — proxy selection never fails: an empty pool yields the
synthesized direct descriptor; a non-empty pool with score ≤ 0.5 yields
the first entry; a non-empty pool with score > 0.5 and an in-bounds
sampled index (the `gen_range(0..len)` contract) yields a pool member. -/
theorem select_proxy_total_spec (pool : List ProxyConfig) (s : ℚ) (i : Nat) :
    (pool = [] → select_proxy pool s i =
      { proxy_url := "direct", proxy_type := "direct", rotation_interval := 300 }) ∧
    (∀ p ps, pool = p :: ps → s ≤ 5/10 → select_proxy pool s i = p) ∧
    (pool ≠ [] → 5/10 < s → i < pool.length → select_proxy pool s i ∈ pool) := by
  refine ⟨?_, ?_, ?_⟩
  · rintro rfl; rfl
  · rintro p ps rfl hs
    unfold select_proxy
    rw [if_neg (by simp), if_neg (not_lt.mpr hs)]
    rfl
  · intro hne hs hi
    unfold select_proxy
    rw [if_neg (by simpa using hne), if_pos hs]
    rw [List.getD_eq_getElem?_getD, List.getElem?_eq_getElem hi]
    exact List.getElem_mem hi

/-- Witness for C6: a two-element pool, score 0.6, sampled index 1. -/
theorem select_proxy_total_spec_witness :
    select_proxy
      [ { proxy_url := "http://p1", proxy_type := "datacenter", rotation_interval := 60 }
      , { proxy_url := "http://p2", proxy_type := "residential", rotation_interval := 60 } ]
      (6/10) 1 ∈
      [ { proxy_url := "http://p1", proxy_type := "datacenter", rotation_interval := 60 }
      , { proxy_url := "http://p2", proxy_type := "residential", rotation_interval := 60 } ] :=
  (select_proxy_total_spec
      [ { proxy_url := "http://p1", proxy_type := "datacenter", rotation_interval := 60 }
      , { proxy_url := "http://p2", proxy_type := "residential", rotation_interval := 60 } ]
      (6/10) 1).2.2 (by simp) (by norm_num) (by simp)

/-- Claim C7 — for every fingerprint and both Bernoulli outcomes,
`build_headers` maps the 7 mandatory keys to the fingerprint/fixed
values, emits no key outside the 11-key universe, and the three
Sec-Fetch keys appear together exactly when the 0.5-trial fires (hence
all together or not at all). -/
theorem build_headers_shape (fp : BrowserFingerprint) (b1 b2 : Bool) :
    ((build_headers fp b1 b2).lookup "User-Agent" = some fp.user_agent) ∧
    ((build_headers fp b1 b2).lookup "Accept" = some fp.accept) ∧
    ((build_headers fp b1 b2).lookup "Accept-Language" = some fp.accept_language) ∧
    ((build_headers fp b1 b2).lookup "Accept-Encoding" = some fp.accept_encoding) ∧
    ((build_headers fp b1 b2).lookup "DNT" = some fp.dnt) ∧
    ((build_headers fp b1 b2).lookup "Connection" = some "keep-alive") ∧
    ((build_headers fp b1 b2).lookup "Upgrade-Insecure-Requests" = some "1") ∧
    (∀ kv ∈ build_headers fp b1 b2, kv.1 ∈ headerKeyUniverse) ∧
    ((build_headers fp b1 b2).lookup "Sec-Fetch-Dest"
        = if b2 then some "document" else none) ∧
    ((build_headers fp b1 b2).lookup "Sec-Fetch-Mode"
        = if b2 then some "navigate" else none) ∧
    ((build_headers fp b1 b2).lookup "Sec-Fetch-Site"
        = if b2 then some "none" else none) := by
  cases b1 <;> cases b2 <;>
    simp [build_headers, headerKeyUniverse, List.lookup]

/-- Witness for C7: a concrete fingerprint, `Cache-Control` trial fires,
Sec-Fetch trial does not. -/
theorem build_headers_shape_witness :
    (build_headers
        { id := "fp1", user_agent := "ua", accept := "a", accept_language := "al"
          accept_encoding := "ae", dnt := "1" } true false).lookup "Connection"
      = some "keep-alive" :=
  (build_headers_shape
    { id := "fp1", user_agent := "ua", accept := "a", accept_language := "al"
      accept_encoding := "ae", dnt := "1" } true false).2.2.2.2.2.1

/-- In every branch, `configure_security` returns the service with the
risk assessor updated by `assess_target_risk` and nothing else. -/
theorem configure_security_snd (svc : SecurityService) (req : SecurityRequest)
    (i : Nat) (b1 b2 : Bool) :
    (configure_security svc req i b1 b2).2 =
      { svc with risk_assessor := (assess_target_risk svc.risk_assessor req.target).2 } := by
  unfold configure_security
  cases h1 : select_fingerprint svc.fingerprint_manager
      (assess_target_risk svc.risk_assessor req.target).1 with
  | error e => simp [h1]
  | ok fp =>
      cases h2 : get_tls_configuration svc.tls_manager
          (assess_target_risk svc.risk_assessor req.target).1 with
      | error e => simp [h1, h2]
      | ok tls => simp [h1, h2]

/-- Claim C8 — the pipeline short-circuits: a missing fingerprint record
for the tier yields exactly the fingerprint-unavailable error (the
code's rendering of `ResourceUnavailable("fingerprint")`) regardless of
the TLS manager; a present fingerprint with a missing TLS profile
yields exactly the TLS-unavailable error; when both lookups succeed the
result is the complete configuration assembled from proxy, timing and
header stages.  An `Except.error` result carries no partial
configuration. -/
theorem configure_security_short_circuit (svc : SecurityService) (req : SecurityRequest)
    (i : Nat) (b1 b2 : Bool) :
    (svc.fingerprint_manager
        (fingerprintTier (assess_target_risk svc.risk_assessor req.target).1) = none →
      (configure_security svc req i b1 b2).1 = .error "No suitable fingerprint available") ∧
    (∀ fp, svc.fingerprint_manager
        (fingerprintTier (assess_target_risk svc.risk_assessor req.target).1) = some fp →
      svc.tls_manager (tlsTier (assess_target_risk svc.risk_assessor req.target).1) = none →
      (configure_security svc req i b1 b2).1 = .error "No suitable TLS profile available") ∧
    (∀ fp tls, svc.fingerprint_manager
        (fingerprintTier (assess_target_risk svc.risk_assessor req.target).1) = some fp →
      svc.tls_manager (tlsTier (assess_target_risk svc.risk_assessor req.target).1) = some tls →
      (configure_security svc req i b1 b2).1 =
        .ok { headers := build_headers fp b1 b2
              tls_config := tls
              proxy_config :=
                select_proxy svc.proxy_pool (assess_target_risk svc.risk_assessor req.target).1 i
              timing_config :=
                configure_timing (assess_target_risk svc.risk_assessor req.target).1
              fingerprint_id := fp.id }) := by
  refine ⟨?_, ?_, ?_⟩
  · intro hfm
    unfold configure_security
    simp [select_fingerprint, hfm]
  · intro fp hfm htm
    unfold configure_security
    simp [select_fingerprint, get_tls_configuration, hfm, htm]
  · intro fp tls hfm htm
    unfold configure_security
    simp [select_fingerprint, get_tls_configuration, hfm, htm]

/-- Witness for C8: a service whose fingerprint manager has no records
fails with the fingerprint-unavailable error. -/
theorem configure_security_short_circuit_witness :
    (configure_security
        { fingerprint_manager := fun _ => none, tls_manager := fun _ => none
          proxy_pool := [], risk_assessor := RiskAssessor.new }
        { target := "example.com", job_type := "scan", priority := 0 }
        0 true true).1 = .error "No suitable fingerprint available" :=
  (configure_security_short_circuit
      { fingerprint_manager := fun _ => none, tls_manager := fun _ => none
        proxy_pool := [], risk_assessor := RiskAssessor.new }
      { target := "example.com", job_type := "scan", priority := 0 }
      0 true true).1 rfl

/-- On the fresh cache, `"https://irs.gov/file"` scores 0: the suffix
check runs against the full URL string, which ends in `"/file"`, so the
`.gov` rule does not fire, and no other rule matches. -/
theorem irs_gov_file_risk_is_zero :
    (assess_target_risk RiskAssessor.new "https://irs.gov/file").1 = 0 := by
  decide

/-- Counterexample for C9 — the computed risk for
`"https://irs.gov/file"` on a fresh cache is not 0.5 (it is 0), so the
claimed scenario fails at its own input. -/
theorem irs_gov_file_risk_not_half :
    ¬ ((assess_target_risk RiskAssessor.new "https://irs.gov/file").1 = 5/10) := by
  rw [irs_gov_file_risk_is_zero]
  norm_num

/-- Claim C9 (amended) — for the target `"https://irs.gov/file"` on a
fresh cache the computed risk score is 0 (the `ends_with(".gov")` check
applies to the whole URL, which ends in `"/file"`), hence the
fingerprint tier is `"simple"`, the TLS tier is `"firefox_standard"`,
and the timing band is (500, 2000, 1000, false). -/
theorem irs_gov_file_scenario_amended :
    (assess_target_risk RiskAssessor.new "https://irs.gov/file").1 = 0 ∧
    fingerprintTier 0 = "simple" ∧
    tlsTier 0 = "firefox_standard" ∧
    configure_timing 0 =
      { request_delay_min := 500, request_delay_max := 2000
        page_load_delay := 1000, human_simulation := false } := by
  refine ⟨irs_gov_file_risk_is_zero, ?_, ?_, ?_⟩
  · unfold fingerprintTier
    rw [if_neg (by norm_num), if_neg (by norm_num)]
  · unfold tlsTier
    rw [if_neg (by norm_num)]
  · unfold configure_timing
    rw [if_neg (by norm_num), if_neg (by norm_num)]

/-- Claim C10 — `configure_security` mutates nothing but the risk cache:
the fingerprint manager, TLS manager, proxy pool and detection-pattern
catalog are unchanged, and the cache is either exactly unchanged (hit)
or exactly extended by the one new entry for `request.target` (miss);
existing entries are never modified or removed. -/
theorem configure_security_frame (svc : SecurityService) (req : SecurityRequest)
    (i : Nat) (b1 b2 : Bool) :
    (configure_security svc req i b1 b2).2.fingerprint_manager = svc.fingerprint_manager ∧
    (configure_security svc req i b1 b2).2.tls_manager = svc.tls_manager ∧
    (configure_security svc req i b1 b2).2.proxy_pool = svc.proxy_pool ∧
    (configure_security svc req i b1 b2).2.risk_assessor.detection_patterns =
      svc.risk_assessor.detection_patterns ∧
    ((svc.risk_assessor.domain_risk_cache.lookup req.target ≠ none ∧
        (configure_security svc req i b1 b2).2.risk_assessor.domain_risk_cache =
          svc.risk_assessor.domain_risk_cache) ∨
     (svc.risk_assessor.domain_risk_cache.lookup req.target = none ∧
        (configure_security svc req i b1 b2).2.risk_assessor.domain_risk_cache =
          (req.target, computeRiskScore req.target) :: svc.risk_assessor.domain_risk_cache)) := by
  rw [configure_security_snd]
  refine ⟨rfl, rfl, rfl, ?_, ?_⟩ <;>
    unfold assess_target_risk <;>
    cases h : svc.risk_assessor.domain_risk_cache.lookup req.target <;> simp [h]

/-- Witness for C10: on an all-empty service, the proxy pool is
untouched by a configuration call. -/
theorem configure_security_frame_witness :
    (configure_security
        { fingerprint_manager := fun _ => none, tls_manager := fun _ => none
          proxy_pool := [], risk_assessor := RiskAssessor.new }
        { target := "example.com", job_type := "scan", priority := 0 }
        0 true true).2.proxy_pool = [] :=
  (configure_security_frame
      { fingerprint_manager := fun _ => none, tls_manager := fun _ => none
        proxy_pool := [], risk_assessor := RiskAssessor.new }
      { target := "example.com", job_type := "scan", priority := 0 }
      0 true true).2.2.1

end Huginn
